import Mathlib

/-!
# Purchase flow of the `AMicrotransaction` actor

Shallow embedding of `examples/unreal/Microtransaction.{h,cpp}`.

* The actor's member variables are the fields of the structure `AMicrotransaction`.
* Member functions are pure functions from the actor state to a `Result`: either the
  new state together with the effects produced in order (log lines and HTTP requests
  handed to the transport), or a fault (a dereferenced null pointer).
* `int32` members are `Int`s; `CurrentCoins += 1000` is reduced to the 32-bit range.
* The engine (HTTP transport, JSON reader, online subsystem, random source) is not part
  of the repository.  What the actor reads from it is a parameter: the JSON reader is
  the record `FJsonSerializer`, the random draw is the argument of the constructor, the
  online subsystem is the argument of `InitializePurchase`.
-/

set_option linter.dupNamespace false

namespace Microtransaction

/-! ## Machine integers -/

/-- Largest `int32`. -/
def INT32_MAX : Int := 2147483647

/-- Smallest `int32`. -/
def INT32_MIN : Int := -2147483648

/-- Two's-complement reduction of an integer to the `int32` range. -/
def wrapInt32 (x : Int) : Int := (x + 2147483648) % 4294967296 - 2147483648

/-- Modelled from the spec: `FString::FromInt` is engine code; it renders an `int32` as
its decimal string. -/
def FromInt (Num : Int) : String := toString Num

/-! ## Engine interfaces the actor talks to -/

/-- Response object of the transport; only its content is read by the actor. -/
structure FHttpResponse where
  GetContentAsString : String
deriving DecidableEq, Repr

/-- Shared pointer to a response, `FHttpResponsePtr`: `none` is the null pointer. -/
abbrev FHttpResponsePtr := Option FHttpResponse

/-- Engine JSON reader as used on response bodies.  `Obj` is the engine's parsed object.
`Deserialize` is `none` when the reader rejects the text; `TryGetStringField` and
`TryGetBoolField` are `none` when the engine call returns `false`. -/
structure FJsonSerializer (Obj : Type) where
  Deserialize : String → Option Obj
  TryGetStringField : Obj → String → Option String
  TryGetBoolField : Obj → String → Option Bool
  HasField : Obj → String → Bool
  GetStringField : Obj → String → String

/-- Object built for a request body.  The actor only ever calls `SetStringField` on it,
so it is a finite map from field names to strings, kept as an association list. -/
abbrev FJsonObject := List (String × String)

/-- Map update `FJsonObject::SetStringField`: replaces the value of an existing field,
otherwise adds the field. -/
def SetStringField (o : FJsonObject) (FieldName Value : String) : FJsonObject :=
  if o.any (fun p => p.1 == FieldName) then
    o.map (fun p => if p.1 == FieldName then (FieldName, Value) else p)
  else
    o ++ [(FieldName, Value)]

/-- The two response lambdas of the actor; a request remembers which one it was given. -/
inductive ResponseCallback where
  | InitializePurchase
  | FinishPurchase
deriving DecidableEq, Repr

/-- Request as configured by `MakeApiCall`.  `Content` is the JSON object whose
serialisation is the body of the request. -/
structure IHttpRequest where
  URL : String
  Verb : String
  Headers : List (String × String)
  Content : FJsonObject
  Callback : ResponseCallback
deriving DecidableEq, Repr

/-- Verbosity of a `UE_LOG` line. -/
inductive ELogVerbosity where
  | Error
  | Log
deriving DecidableEq, Repr

/-- Observable output of a member function. -/
inductive Effect where
  | UE_LOG (Verbosity : ELogVerbosity) (Message : String)
  | ProcessRequest (Request : IHttpRequest)
deriving DecidableEq, Repr

/-- Abnormal termination. -/
inductive Fault where
  | NullDereference
deriving DecidableEq, Repr

/-- Identity interface of the online subsystem: the printed id of local player 0,
`none` when the id pointer is invalid. -/
structure IOnlineIdentity where
  GetUniquePlayerId0 : Option String
deriving DecidableEq, Repr

/-- Online subsystem as seen by the actor.  `IsSteam` is the outcome of
`GetSubsystemName() == STEAM_SUBSYSTEM`. -/
structure IOnlineSubsystem where
  IsSteam : Bool
  GetIdentityInterface : Option IOnlineIdentity
deriving DecidableEq, Repr

/-- Modelled from the spec: the declaration of the platform callback payload is not part
of the repository; the event is `{appId: int, orderId: int, authorized: bool}`. -/
structure FSteamMicroTxnAuthorizationResponse where
  AppID : Int
  OrderID : Int
  bAuthorized : Bool
deriving DecidableEq, Repr

/-! ## The actor -/

/-- Member variables of the actor (`Microtransaction.h`). -/
structure AMicrotransaction where
  AppId : String
  BaseUrl : String
  CurrentOrder : Int
  CurrentTransactionId : String
  bIsInPurchaseProcess : Bool
  CurrentCoins : Int
deriving DecidableEq, Repr

/-- Outcome of a member function or callback. -/
abbrev Result := Except Fault (AMicrotransaction × List Effect)

/-- Constructor.  `RandRange` is the value returned by
`FMath::RandRange(1000000, 100000000)`; the two configuration strings take the default
member initialisers of the header. -/
def AMicrotransaction.AMicrotransaction (RandRange : Int) : Microtransaction.AMicrotransaction :=
  { AppId := "480"
    BaseUrl := "http://yourapi.com"
    CurrentOrder := RandRange
    CurrentTransactionId := ""
    bIsInPurchaseProcess := false
    CurrentCoins := 100 }

/-- Request set-up of `MakeApiCall`: the request that is handed to the transport. -/
def MakeApiCall (ApiEndPoint : String) (RequestData : FJsonObject)
    (Callback : ResponseCallback) : IHttpRequest :=
  { URL := ApiEndPoint
    Verb := "POST"
    Headers := [("Content-Type", "application/json")]
    Content := RequestData
    Callback := Callback }

/-- Player id lookup at the top of `InitializePurchase`; the empty string when any of
the nested checks fails. -/
def UserId (OnlineSubsystem : Option IOnlineSubsystem) : String :=
  match OnlineSubsystem with
  | none => ""
  | some sub =>
    if sub.IsSteam then
      match sub.GetIdentityInterface with
      | none => ""
      | some IdentityInterface =>
        match IdentityInterface.GetUniquePlayerId0 with
        | none => ""
        | some UserIdPtr => UserIdPtr
    else ""

/-- Request body built by `InitializePurchase`. -/
def InitializePurchaseRequestData (self : AMicrotransaction)
    (OnlineSubsystem : Option IOnlineSubsystem) : FJsonObject :=
  let RequestData : FJsonObject := []
  let RequestData := SetStringField RequestData "itemId" "1001"
  let RequestData := SetStringField RequestData "steamId" (UserId OnlineSubsystem)
  let RequestData := SetStringField RequestData "orderId" (FromInt self.CurrentOrder)
  let RequestData := SetStringField RequestData "itemDescription" "1000 Coins"
  let RequestData := SetStringField RequestData "category" "Gold"
  SetStringField RequestData "appId" self.AppId

/-- Member function `InitializePurchase`, up to the point where the request is sent. -/
def InitializePurchase (self : AMicrotransaction)
    (OnlineSubsystem : Option IOnlineSubsystem) : Result :=
  .ok (self, [.ProcessRequest (MakeApiCall (self.BaseUrl ++ "/InitPurchase")
    (InitializePurchaseRequestData self OnlineSubsystem) .InitializePurchase)])

/-- Response lambda passed to `MakeApiCall` by `InitializePurchase`. -/
def InitializePurchaseCallback {Obj : Type} (J : FJsonSerializer Obj)
    (self : AMicrotransaction) (Response : FHttpResponsePtr) (bSuccess : Bool) : Result :=
  if !bSuccess || !Response.isSome then
    -- the log argument is `*Response->GetContentAsString()`
    match Response with
    | none => .error .NullDereference
    | some r =>
      .ok (self, [.UE_LOG .Error ("Error initializing purchase: " ++ r.GetContentAsString)])
  else
    match Response with
    | none => .error .NullDereference
    | some r =>
      match J.Deserialize r.GetContentAsString with
      | none => .ok (self, [])
      | some JsonResponse =>
        match J.TryGetStringField JsonResponse "transid" with
        | some TransactionId =>
          .ok ({ self with CurrentTransactionId := TransactionId },
            [.UE_LOG .Log ("Transaction initiated. Id: " ++ TransactionId)])
        | none =>
          if J.HasField JsonResponse "error" then
            .ok (self,
              [.UE_LOG .Error ("Error from API: " ++ J.GetStringField JsonResponse "error")])
          else .ok (self, [])

/-- Request body built by `FinishPurchase`. -/
def FinishPurchaseRequestData (self : AMicrotransaction) (OrderId : String) : FJsonObject :=
  let RequestData : FJsonObject := []
  let RequestData := SetStringField RequestData "orderId" OrderId
  SetStringField RequestData "appId" self.AppId

/-- Member function `FinishPurchase`, up to the point where the request is sent. -/
def FinishPurchase (self : AMicrotransaction) (OrderId : String) : Result :=
  .ok (self, [.ProcessRequest (MakeApiCall (self.BaseUrl ++ "/FinalizePurchase")
    (FinishPurchaseRequestData self OrderId) .FinishPurchase)])

/-- Response lambda passed to `MakeApiCall` by `FinishPurchase`. -/
def FinishPurchaseCallback {Obj : Type} (J : FJsonSerializer Obj)
    (self : AMicrotransaction) (Response : FHttpResponsePtr) (bSuccess : Bool) : Result :=
  if !bSuccess || !Response.isSome then
    -- the log argument is `*Response->GetContentAsString()`
    match Response with
    | none => .error .NullDereference
    | some r =>
      .ok (self, [.UE_LOG .Error ("Error finalizing purchase: " ++ r.GetContentAsString)])
  else
    match Response with
    | none => .error .NullDereference
    | some r =>
      match J.Deserialize r.GetContentAsString with
      | none => .ok (self, [])
      | some JsonResponse =>
        if J.TryGetBoolField JsonResponse "success" = some true then
          .ok ({ self with
                  CurrentCoins := wrapInt32 (self.CurrentCoins + 1000)
                  bIsInPurchaseProcess := false },
            [.UE_LOG .Log "Transaction Finished. Coins added: 1000"])
        else if J.HasField JsonResponse "error" then
          .ok (self,
            [.UE_LOG .Error ("Error from API: " ++ J.GetStringField JsonResponse "error")])
        else .ok (self, [])

/-- Rendering of a `bool` under `%d`. -/
def boolDigit (b : Bool) : String := if b then "1" else "0"

/-- Trailing log line of `OnMicroTxnAuthorizationResponse`. -/
def AuthorizationLogLine (Response : FSteamMicroTxnAuthorizationResponse) : Effect :=
  .UE_LOG .Log ("MicroTxnAuthorizationResponse received - AppID: " ++ FromInt Response.AppID
    ++ ", OrderID: " ++ FromInt Response.OrderID
    ++ ", Authorized: " ++ boolDigit Response.bAuthorized)

/-- Member function `OnMicroTxnAuthorizationResponse`, the platform callback. -/
def OnMicroTxnAuthorizationResponse (self : AMicrotransaction)
    (Response : FSteamMicroTxnAuthorizationResponse) : Result :=
  if Response.bAuthorized then
    match FinishPurchase self (FromInt Response.OrderID) with
    | .error f => .error f
    | .ok (self1, out) => .ok (self1, out ++ [AuthorizationLogLine Response])
  else
    .ok (self, [.UE_LOG .Error "Purchase was not authorized by the user.",
      AuthorizationLogLine Response])

/-- Completion lambda bound in `MakeApiCall`: forwards to the callback of the request. -/
def OnProcessRequestComplete {Obj : Type} (J : FJsonSerializer Obj)
    (self : AMicrotransaction) (Request : IHttpRequest) (Response : FHttpResponsePtr)
    (bSuccess : Bool) : Result :=
  match Request.Callback with
  | .InitializePurchase => InitializePurchaseCallback J self Response bSuccess
  | .FinishPurchase => FinishPurchaseCallback J self Response bSuccess

/-! ## Events and steps -/

/-- Entry points through which control reaches the actor. -/
inductive Event where
  | InitializePurchase (OnlineSubsystem : Option IOnlineSubsystem)
  | FinishPurchase (OrderId : String)
  | OnMicroTxnAuthorizationResponse (Response : FSteamMicroTxnAuthorizationResponse)
  | OnProcessRequestComplete (Request : IHttpRequest) (Response : FHttpResponsePtr)
      (bSuccess : Bool)
deriving DecidableEq, Repr

/-- One step of the actor: the member function or lambda selected by the event. -/
def step {Obj : Type} (J : FJsonSerializer Obj) (self : AMicrotransaction) :
    Event → Result
  | .InitializePurchase OnlineSubsystem => InitializePurchase self OnlineSubsystem
  | .FinishPurchase OrderId => FinishPurchase self OrderId
  | .OnMicroTxnAuthorizationResponse Response => OnMicroTxnAuthorizationResponse self Response
  | .OnProcessRequestComplete Request Response bSuccess =>
    OnProcessRequestComplete J self Request Response bSuccess

/-- Requests among a list of effects, in order. -/
def requests : List Effect → List IHttpRequest
  | [] => []
  | .ProcessRequest q :: rest => q :: requests rest
  | .UE_LOG _ _ :: rest => requests rest

/-- Requests handed to the transport by a step.  A fault stops the callback at the
dereference, which in both callbacks comes before any output. -/
def emitted : Result → List IHttpRequest
  | .error _ => []
  | .ok (_, out) => requests out

/-- State after a step; a fault leaves no state to continue from. -/
def stateAfter : Result → Option AMicrotransaction
  | .error _ => none
  | .ok (self, _) => some self

/-- Value of the field `FieldName` in a request body, if present. -/
def GetField (o : FJsonObject) (FieldName : String) : Option String :=
  (o.find? (fun p => p.1 == FieldName)).map (fun p => p.2)

/-- Values of the `orderId` field in the requests sent by a step. -/
def orderIdsSent (res : Result) : List (Option String) :=
  (emitted res).map (fun q => GetField q.Content "orderId")

/-! ## A small JSON reader for concrete runs -/

/-- Field values of the small reader. -/
inductive FJsonValue where
  | String (Value : String)
  | Boolean (Value : Bool)
deriving DecidableEq, Repr

/-- Field lookup in a parsed object of the small reader. -/
def TryGetField (o : List (String × FJsonValue)) (FieldName : String) : Option FJsonValue :=
  (o.find? (fun p => p.1 == FieldName)).map (fun p => p.2)

/-- Reader instance used to run the actor on concrete response bodies.  It recognises
the four bodies written out below and rejects every other text; lookups are typed. -/
def sampleJson : FJsonSerializer (List (String × FJsonValue)) where
  Deserialize := fun text =>
    if text = "\x7b\"transid\":\"T1\"\x7d" then some [("transid", .String "T1")]
    else if text = "\x7b\"success\":true\x7d" then some [("success", .Boolean true)]
    else if text = "\x7b\"success\":true,\"error\":\"late\"\x7d" then
      some [("success", .Boolean true), ("error", .String "late")]
    else if text = "\x7b\"error\":\"invalid_item\"\x7d" then
      some [("error", .String "invalid_item")]
    else none
  TryGetStringField := fun o FieldName =>
    match TryGetField o FieldName with
    | some (.String v) => some v
    | _ => none
  TryGetBoolField := fun o FieldName =>
    match TryGetField o FieldName with
    | some (.Boolean b) => some b
    | _ => none
  HasField := fun o FieldName => (TryGetField o FieldName).isSome
  GetStringField := fun o FieldName =>
    match TryGetField o FieldName with
    | some (.String v) => v
    | _ => ""

/-- Actor state used in concrete runs. -/
def sampleActor : AMicrotransaction := AMicrotransaction.AMicrotransaction 1000000

/-- Body of a successful `InitPurchase` reply. -/
def transidBody : FHttpResponse := ⟨"\x7b\"transid\":\"T1\"\x7d"⟩

/-- Body of a successful `FinalizePurchase` reply. -/
def successBody : FHttpResponse := ⟨"\x7b\"success\":true\x7d"⟩

/-- Reply that carries both `success: true` and an `error` field. -/
def successWithErrorBody : FHttpResponse := ⟨"\x7b\"success\":true,\"error\":\"late\"\x7d"⟩

/-- The `FinalizePurchase` request the actor sends for the order id `OrderId`. -/
def FinalizeRequest (self : AMicrotransaction) (OrderId : String) : IHttpRequest :=
  MakeApiCall (self.BaseUrl ++ "/FinalizePurchase") (FinishPurchaseRequestData self OrderId)
    .FinishPurchase

/-- State after a sequence of events, `none` once a step faults. -/
def runEvents {Obj : Type} (J : FJsonSerializer Obj) (self : AMicrotransaction) :
    List Event → Option AMicrotransaction
  | [] => some self
  | e :: rest =>
    match step J self e with
    | .error _ => none
    | .ok (next, _) => runEvents J next rest

/-! ## Basic facts about the member functions -/

theorem wrapInt32_of_inRange (x : Int) (hlo : INT32_MIN ≤ x) (hhi : x ≤ INT32_MAX) :
    wrapInt32 x = x := by
  unfold wrapInt32
  unfold INT32_MIN at hlo
  unfold INT32_MAX at hhi
  omega

theorem InitializePurchaseCallback_transid {Obj : Type} (J : FJsonSerializer Obj)
    (self : AMicrotransaction) (r : FHttpResponse) (o : Obj) (TransactionId : String)
    (hd : J.Deserialize r.GetContentAsString = some o)
    (ht : J.TryGetStringField o "transid" = some TransactionId) :
    InitializePurchaseCallback J self (some r) true =
      .ok ({ self with CurrentTransactionId := TransactionId },
        [.UE_LOG .Log ("Transaction initiated. Id: " ++ TransactionId)]) := by
  simp [InitializePurchaseCallback, hd, ht]

theorem FinishPurchaseCallback_success {Obj : Type} (J : FJsonSerializer Obj)
    (self : AMicrotransaction) (r : FHttpResponse) (o : Obj)
    (hd : J.Deserialize r.GetContentAsString = some o)
    (hs : J.TryGetBoolField o "success" = some true) :
    FinishPurchaseCallback J self (some r) true =
      .ok ({ self with
              CurrentCoins := wrapInt32 (self.CurrentCoins + 1000)
              bIsInPurchaseProcess := false },
        [.UE_LOG .Log "Transaction Finished. Coins added: 1000"]) := by
  simp [FinishPurchaseCallback, hd, hs]

theorem FinishPurchaseRequestData_eq (self : AMicrotransaction) (OrderId : String) :
    FinishPurchaseRequestData self OrderId = [("orderId", OrderId), ("appId", self.AppId)] := by
  simp [FinishPurchaseRequestData, SetStringField]

theorem OnMicroTxnAuthorizationResponse_authorized (self : AMicrotransaction)
    (Response : FSteamMicroTxnAuthorizationResponse) (h : Response.bAuthorized = true) :
    OnMicroTxnAuthorizationResponse self Response =
      .ok (self, [.ProcessRequest (FinalizeRequest self (FromInt Response.OrderID)),
        AuthorizationLogLine Response]) := by
  simp [OnMicroTxnAuthorizationResponse, h, FinishPurchase, FinalizeRequest]

theorem OnMicroTxnAuthorizationResponse_declined (self : AMicrotransaction)
    (Response : FSteamMicroTxnAuthorizationResponse) (h : Response.bAuthorized = false) :
    OnMicroTxnAuthorizationResponse self Response =
      .ok (self, [.UE_LOG .Error "Purchase was not authorized by the user.",
        AuthorizationLogLine Response]) := by
  simp [OnMicroTxnAuthorizationResponse, h]

theorem InitializePurchaseCallback_requests {Obj : Type} (J : FJsonSerializer Obj)
    (self : AMicrotransaction) (Response : FHttpResponsePtr) (bSuccess : Bool) :
    emitted (InitializePurchaseCallback J self Response bSuccess) = [] := by
  unfold InitializePurchaseCallback
  repeat' split
  all_goals simp [emitted, requests]

theorem FinishPurchaseCallback_requests {Obj : Type} (J : FJsonSerializer Obj)
    (self : AMicrotransaction) (Response : FHttpResponsePtr) (bSuccess : Bool) :
    emitted (FinishPurchaseCallback J self Response bSuccess) = [] := by
  unfold FinishPurchaseCallback
  repeat' split
  all_goals simp [emitted, requests]

theorem InitializePurchaseCallback_coins {Obj : Type} (J : FJsonSerializer Obj)
    (self next : AMicrotransaction) (Response : FHttpResponsePtr) (bSuccess : Bool)
    (out : List Effect)
    (h : InitializePurchaseCallback J self Response bSuccess = .ok (next, out)) :
    next.CurrentCoins = self.CurrentCoins := by
  unfold InitializePurchaseCallback at h
  repeat' split at h
  all_goals simp at h
  all_goals rw [← h.1]

theorem FinishPurchaseCallback_coins {Obj : Type} (J : FJsonSerializer Obj)
    (self next : AMicrotransaction) (Response : FHttpResponsePtr) (bSuccess : Bool)
    (out : List Effect)
    (h : FinishPurchaseCallback J self Response bSuccess = .ok (next, out)) :
    next.CurrentCoins = self.CurrentCoins ∨
      ∃ r o, Response = some r ∧ bSuccess = true ∧
        J.Deserialize r.GetContentAsString = some o ∧
        J.TryGetBoolField o "success" = some true := by
  unfold FinishPurchaseCallback at h
  split at h
  · left
    split at h
    all_goals simp at h
    all_goals rw [← h.1]
  · rename_i hg
    split at h
    · simp at h
    · rename_i r
      split at h
      · left
        simp at h
        rw [← h.1]
      · rename_i o hd
        split at h
        · rename_i hs
          right
          refine ⟨r, o, rfl, ?_, hd, hs⟩
          cases bSuccess
          · simp at hg
          · rfl
        · left
          split at h
          all_goals simp at h
          all_goals rw [← h.1]

theorem url_InitPurchase_ne_FinalizePurchase (BaseUrl : String) :
    BaseUrl ++ "/InitPurchase" ≠ BaseUrl ++ "/FinalizePurchase" := by
  intro h
  have h2 := congrArg String.data h
  simp [String.data_append] at h2

/-! ## The purchase sequence -/

/-- Claim C1.  From any actor state whose `CurrentCoins` is an `int32` not above
`INT32_MAX - 1000`: `InitializePurchase` sends one request; completing that request with
a body whose `transid` is `"T1"`, then the authorization event for the current order with
`authorized = true` (which sends one request), then completing that request with a body
whose `success` is `true`, all finish normally.  The balance is untouched by the first
three steps and is the initial balance plus 1000 at the end, where the in-progress flag is
`false` and `CurrentTransactionId` is `"T1"`. -/
theorem purchase_sequence_credits_reward_once {Obj : Type} (J : FJsonSerializer Obj)
    (self : AMicrotransaction) (OnlineSubsystem : Option IOnlineSubsystem) (AppID : Int)
    (initReply finalizeReply : FHttpResponse) (o1 o2 : Obj)
    (hlo : INT32_MIN ≤ self.CurrentCoins)
    (hhi : self.CurrentCoins ≤ INT32_MAX - 1000)
    (hd1 : J.Deserialize initReply.GetContentAsString = some o1)
    (ht : J.TryGetStringField o1 "transid" = some "T1")
    (hd2 : J.Deserialize finalizeReply.GetContentAsString = some o2)
    (hs : J.TryGetBoolField o2 "success" = some true) :
    ∃ (s1 s2 s3 s4 : AMicrotransaction) (out1 out2 out3 out4 : List Effect)
      (q1 q2 : IHttpRequest),
      step J self (.InitializePurchase OnlineSubsystem) = .ok (s1, out1) ∧
      requests out1 = [q1] ∧
      step J s1 (.OnProcessRequestComplete q1 (some initReply) true) = .ok (s2, out2) ∧
      step J s2 (.OnMicroTxnAuthorizationResponse ⟨AppID, self.CurrentOrder, true⟩)
        = .ok (s3, out3) ∧
      requests out3 = [q2] ∧
      step J s3 (.OnProcessRequestComplete q2 (some finalizeReply) true) = .ok (s4, out4) ∧
      s1.CurrentCoins = self.CurrentCoins ∧
      s2.CurrentCoins = self.CurrentCoins ∧
      s3.CurrentCoins = self.CurrentCoins ∧
      s4.CurrentCoins = self.CurrentCoins + 1000 ∧
      s4.bIsInPurchaseProcess = false ∧
      s4.CurrentTransactionId = "T1" := by
  have hw : wrapInt32 (self.CurrentCoins + 1000) = self.CurrentCoins + 1000 := by
    apply wrapInt32_of_inRange
    · unfold INT32_MIN at *
      omega
    · unfold INT32_MAX at *
      omega
  refine ⟨self, { self with CurrentTransactionId := "T1" },
    { self with CurrentTransactionId := "T1" },
    { self with
        CurrentTransactionId := "T1"
        CurrentCoins := self.CurrentCoins + 1000
        bIsInPurchaseProcess := false },
    [.ProcessRequest (MakeApiCall (self.BaseUrl ++ "/InitPurchase")
      (InitializePurchaseRequestData self OnlineSubsystem) .InitializePurchase)],
    [.UE_LOG .Log ("Transaction initiated. Id: " ++ "T1")],
    [.ProcessRequest (FinalizeRequest { self with CurrentTransactionId := "T1" }
        (FromInt self.CurrentOrder)),
      AuthorizationLogLine ⟨AppID, self.CurrentOrder, true⟩],
    [.UE_LOG .Log "Transaction Finished. Coins added: 1000"],
    MakeApiCall (self.BaseUrl ++ "/InitPurchase")
      (InitializePurchaseRequestData self OnlineSubsystem) .InitializePurchase,
    FinalizeRequest { self with CurrentTransactionId := "T1" } (FromInt self.CurrentOrder),
    rfl, rfl, ?_, ?_, rfl, ?_, rfl, rfl, rfl, rfl, rfl, rfl⟩
  · simp only [step, OnProcessRequestComplete, MakeApiCall]
    exact InitializePurchaseCallback_transid J self initReply o1 "T1" hd1 ht
  · simp only [step]
    exact OnMicroTxnAuthorizationResponse_authorized _ _ rfl
  · simp only [step, OnProcessRequestComplete, FinalizeRequest, MakeApiCall]
    rw [FinishPurchaseCallback_success J _ finalizeReply o2 hd2 hs]
    simp only [hw]

/-- Concrete run of the full purchase sequence on the freshly constructed actor with the
small reader. -/
theorem purchase_sequence_credits_reward_once_witness :
    ∃ (s1 s2 s3 s4 : AMicrotransaction) (out1 out2 out3 out4 : List Effect)
      (q1 q2 : IHttpRequest),
      step sampleJson sampleActor (.InitializePurchase none) = .ok (s1, out1) ∧
      requests out1 = [q1] ∧
      step sampleJson s1 (.OnProcessRequestComplete q1 (some transidBody) true)
        = .ok (s2, out2) ∧
      step sampleJson s2
        (.OnMicroTxnAuthorizationResponse ⟨480, sampleActor.CurrentOrder, true⟩)
        = .ok (s3, out3) ∧
      requests out3 = [q2] ∧
      step sampleJson s3 (.OnProcessRequestComplete q2 (some successBody) true)
        = .ok (s4, out4) ∧
      s1.CurrentCoins = sampleActor.CurrentCoins ∧
      s2.CurrentCoins = sampleActor.CurrentCoins ∧
      s3.CurrentCoins = sampleActor.CurrentCoins ∧
      s4.CurrentCoins = sampleActor.CurrentCoins + 1000 ∧
      s4.bIsInPurchaseProcess = false ∧
      s4.CurrentTransactionId = "T1" :=
  purchase_sequence_credits_reward_once sampleJson sampleActor none 480 transidBody
    successBody [("transid", .String "T1")] [("success", .Boolean true)]
    (by decide) (by decide) (by decide) (by decide) (by decide) (by decide)

/-! ## Repeated confirmations -/

/-- Claim C2, refuted as stated.  On the freshly constructed actor (100 coins) the
success confirmation of the `FinalizePurchase` request for the current order is handled
twice: the balance is 1100 after the first handling and 2100 after the second. -/
theorem duplicate_confirmation_credits_twice_example :
    (runEvents sampleJson sampleActor
        [.OnProcessRequestComplete (FinalizeRequest sampleActor "1000000")
          (some successBody) true]).map (fun a => a.CurrentCoins) = some 1100 ∧
    (runEvents sampleJson sampleActor
        [.OnProcessRequestComplete (FinalizeRequest sampleActor "1000000")
          (some successBody) true,
         .OnProcessRequestComplete (FinalizeRequest sampleActor "1000000")
          (some successBody) true]).map (fun a => a.CurrentCoins) = some 2100 := by
  decide

/-- Claim C2, amended.  Every handling of a success confirmation credits the reward:
for an `int32` balance not above `INT32_MAX - 2000`, handling the confirmation of the
`FinalizePurchase` request of one order id twice finishes normally both times, the
balance is 1000 higher after the first handling and 1000 higher again after the second. -/
theorem duplicate_confirmation_credits_again {Obj : Type} (J : FJsonSerializer Obj)
    (self : AMicrotransaction) (OrderId : String) (reply : FHttpResponse) (o : Obj)
    (hlo : INT32_MIN ≤ self.CurrentCoins)
    (hhi : self.CurrentCoins ≤ INT32_MAX - 2000)
    (hd : J.Deserialize reply.GetContentAsString = some o)
    (hs : J.TryGetBoolField o "success" = some true) :
    ∃ (s1 s2 : AMicrotransaction) (out1 out2 : List Effect),
      step J self (.OnProcessRequestComplete (FinalizeRequest self OrderId) (some reply) true)
        = .ok (s1, out1) ∧
      step J s1 (.OnProcessRequestComplete (FinalizeRequest self OrderId) (some reply) true)
        = .ok (s2, out2) ∧
      s1.CurrentCoins = self.CurrentCoins + 1000 ∧
      s2.CurrentCoins = s1.CurrentCoins + 1000 := by
  have hw1 : wrapInt32 (self.CurrentCoins + 1000) = self.CurrentCoins + 1000 := by
    apply wrapInt32_of_inRange
    · unfold INT32_MIN at *
      omega
    · unfold INT32_MAX at *
      omega
  have hw2 : wrapInt32 (self.CurrentCoins + 1000 + 1000) = self.CurrentCoins + 1000 + 1000 := by
    apply wrapInt32_of_inRange
    · unfold INT32_MIN at *
      omega
    · unfold INT32_MAX at *
      omega
  refine ⟨{ self with
              CurrentCoins := self.CurrentCoins + 1000
              bIsInPurchaseProcess := false },
    { self with
        CurrentCoins := self.CurrentCoins + 1000 + 1000
        bIsInPurchaseProcess := false },
    [.UE_LOG .Log "Transaction Finished. Coins added: 1000"],
    [.UE_LOG .Log "Transaction Finished. Coins added: 1000"], ?_, ?_, rfl, rfl⟩
  · simp only [step, OnProcessRequestComplete, FinalizeRequest, MakeApiCall]
    rw [FinishPurchaseCallback_success J _ reply o hd hs]
    simp only [hw1]
  · simp only [step, OnProcessRequestComplete, FinalizeRequest, MakeApiCall]
    rw [FinishPurchaseCallback_success J _ reply o hd hs]
    simp only [hw2]

/-- Concrete run: the same success confirmation handled twice on the freshly constructed
actor. -/
theorem duplicate_confirmation_credits_again_witness :
    ∃ (s1 s2 : AMicrotransaction) (out1 out2 : List Effect),
      step sampleJson sampleActor
        (.OnProcessRequestComplete (FinalizeRequest sampleActor "1000000")
          (some successBody) true) = .ok (s1, out1) ∧
      step sampleJson s1
        (.OnProcessRequestComplete (FinalizeRequest sampleActor "1000000")
          (some successBody) true) = .ok (s2, out2) ∧
      s1.CurrentCoins = sampleActor.CurrentCoins + 1000 ∧
      s2.CurrentCoins = s1.CurrentCoins + 1000 :=
  duplicate_confirmation_credits_again sampleJson sampleActor "1000000" successBody
    [("success", .Boolean true)] (by decide) (by decide) (by decide) (by decide)

/-! ## Authorization events -/

/-- Claim C3, refuted as stated.  The freshly constructed actor has current order
1000000; an authorized event for order 2000000 makes it send a `FinalizePurchase`
request for order 2000000. -/
theorem foreign_authorized_event_is_finalized_example :
    (2000000 : Int) ≠ sampleActor.CurrentOrder ∧
    emitted (step sampleJson sampleActor
        (.OnMicroTxnAuthorizationResponse ⟨480, 2000000, true⟩)) =
      [{ URL := "http://yourapi.com/FinalizePurchase"
         Verb := "POST"
         Headers := [("Content-Type", "application/json")]
         Content := [("orderId", "2000000"), ("appId", "480")]
         Callback := .FinishPurchase }] := by
  decide

/-- Claim C3, amended.  An authorization event whose order id differs from
`CurrentOrder` finishes normally and leaves the whole actor state unchanged; with
`authorized = false` no request is sent, with `authorized = true` exactly one request is
sent, the `FinalizePurchase` request for the order id of the event. -/
theorem foreign_event_keeps_state {Obj : Type} (J : FJsonSerializer Obj)
    (self : AMicrotransaction) (Response : FSteamMicroTxnAuthorizationResponse)
    (hne : Response.OrderID ≠ self.CurrentOrder) :
    stateAfter (step J self (.OnMicroTxnAuthorizationResponse Response)) = some self ∧
    emitted (step J self (.OnMicroTxnAuthorizationResponse Response)) =
      if Response.bAuthorized then [FinalizeRequest self (FromInt Response.OrderID)]
      else [] := by
  have _ := hne
  cases hb : Response.bAuthorized
  · simp [step, OnMicroTxnAuthorizationResponse_declined self Response hb, stateAfter,
      emitted, requests, AuthorizationLogLine]
  · simp [step, OnMicroTxnAuthorizationResponse_authorized self Response hb, stateAfter,
      emitted, requests, AuthorizationLogLine]

/-- Concrete run: a declined event for another order on the freshly constructed actor. -/
theorem foreign_event_keeps_state_witness :
    stateAfter (step sampleJson sampleActor
      (.OnMicroTxnAuthorizationResponse ⟨480, 2000000, false⟩)) = some sampleActor ∧
    emitted (step sampleJson sampleActor
      (.OnMicroTxnAuthorizationResponse ⟨480, 2000000, false⟩)) =
      if (⟨480, 2000000, false⟩ : FSteamMicroTxnAuthorizationResponse).bAuthorized then
        [FinalizeRequest sampleActor (FromInt 2000000)]
      else [] :=
  foreign_event_keeps_state sampleJson sampleActor ⟨480, 2000000, false⟩ (by decide)

/-! ## Transport failures -/

/-- Claim C4, the code at the failing input.  When the transport completes a request of
either kind with a null response, whatever `bSuccess` is, the callback dereferences the
null pointer for its log line. -/
theorem null_response_is_dereferenced {Obj : Type} (J : FJsonSerializer Obj)
    (self : AMicrotransaction) (Request : IHttpRequest) (bSuccess : Bool) :
    step J self (.OnProcessRequestComplete Request none bSuccess)
      = .error .NullDereference := by
  cases hc : Request.Callback <;> cases bSuccess <;>
    simp [step, OnProcessRequestComplete, hc, InitializePurchaseCallback,
      FinishPurchaseCallback]

/-- A failed completion that does carry a response object only logs: the callback
finishes normally, keeps the state and sends nothing. -/
theorem failed_completion_with_response {Obj : Type} (J : FJsonSerializer Obj)
    (self : AMicrotransaction) (Request : IHttpRequest) (r : FHttpResponse) :
    stateAfter (step J self (.OnProcessRequestComplete Request (some r) false)) = some self ∧
    emitted (step J self (.OnProcessRequestComplete Request (some r) false)) = [] := by
  cases hc : Request.Callback <;>
    simp [step, OnProcessRequestComplete, hc, InitializePurchaseCallback,
      FinishPurchaseCallback, stateAfter, emitted, requests]

/-! ## The wallet -/

/-- Claim C5, refuted as stated.  The reply below parses to an object that has an
`error` field and `success = true`; handling it as the completion of a
`FinalizePurchase` request takes the balance of the fresh actor from 100 to 1100. -/
theorem success_reply_with_error_field_is_credited_example :
    sampleJson.Deserialize successWithErrorBody.GetContentAsString =
      some [("success", .Boolean true), ("error", .String "late")] ∧
    sampleJson.HasField [("success", .Boolean true), ("error", .String "late")] "error"
      = true ∧
    sampleActor.CurrentCoins = 100 ∧
    (runEvents sampleJson sampleActor
        [.OnProcessRequestComplete (FinalizeRequest sampleActor "1000000")
          (some successWithErrorBody) true]).map (fun a => a.CurrentCoins) = some 1100 := by
  decide

/-- Claim C5, amended.  For every state and every event whose handling completes, either
`CurrentCoins` is unchanged or the event is the successful completion of a
`FinalizePurchase` request whose body parses and has `success = true`.  Hence
`InitializePurchase`, `FinishPurchase`, every `InitPurchase` response, every
authorization event and every `FinalizePurchase` response that is malformed or whose
`success` is `false` or absent leave the balance unchanged. -/
theorem wallet_written_only_by_finalize_success {Obj : Type} (J : FJsonSerializer Obj)
    (self next : AMicrotransaction) (e : Event) (out : List Effect)
    (h : step J self e = .ok (next, out)) :
    next.CurrentCoins = self.CurrentCoins ∨
      ∃ (q : IHttpRequest) (r : FHttpResponse) (o : Obj),
        e = .OnProcessRequestComplete q (some r) true ∧
        q.Callback = .FinishPurchase ∧
        J.Deserialize r.GetContentAsString = some o ∧
        J.TryGetBoolField o "success" = some true := by
  cases e with
  | InitializePurchase env =>
    left
    simp [step, InitializePurchase] at h
    rw [← h.1]
  | FinishPurchase id =>
    left
    simp [step, FinishPurchase] at h
    rw [← h.1]
  | OnMicroTxnAuthorizationResponse R =>
    left
    cases hb : R.bAuthorized
    · simp [step, OnMicroTxnAuthorizationResponse_declined self R hb] at h
      rw [← h.1]
    · simp [step, OnMicroTxnAuthorizationResponse_authorized self R hb] at h
      rw [← h.1]
  | OnProcessRequestComplete q Response bSuccess =>
    cases hc : q.Callback
    · left
      simp only [step, OnProcessRequestComplete, hc] at h
      exact InitializePurchaseCallback_coins J self next Response bSuccess out h
    · simp only [step, OnProcessRequestComplete, hc] at h
      rcases FinishPurchaseCallback_coins J self next Response bSuccess out h with hk | hk
      · left
        exact hk
      · right
        obtain ⟨r, o, hr, hb, hd, hs⟩ := hk
        subst hr
        subst hb
        exact ⟨q, r, o, rfl, hc, hd, hs⟩

/-- Concrete run: a credited confirmation on the freshly constructed actor. -/
theorem wallet_written_only_by_finalize_success_witness :
    step sampleJson sampleActor
        (.OnProcessRequestComplete (FinalizeRequest sampleActor "1000000")
          (some successBody) true)
      = .ok ({ sampleActor with CurrentCoins := 1100 },
          [.UE_LOG .Log "Transaction Finished. Coins added: 1000"]) ∧
    ((1100 : Int) = sampleActor.CurrentCoins ∨
      ∃ (q : IHttpRequest) (r : FHttpResponse) (o : List (String × FJsonValue)),
        Event.OnProcessRequestComplete (FinalizeRequest sampleActor "1000000")
            (some successBody) true
          = .OnProcessRequestComplete q (some r) true ∧
        q.Callback = .FinishPurchase ∧
        sampleJson.Deserialize r.GetContentAsString = some o ∧
        sampleJson.TryGetBoolField o "success" = some true) :=
  ⟨rfl, wallet_written_only_by_finalize_success sampleJson sampleActor
    { sampleActor with CurrentCoins := 1100 } _ _ rfl⟩

/-! ## Requests -/

/-- Claim C6.  Handling an `InitPurchase` response, whatever its body, sends no request;
handling an authorization event with `authorized = false` sends no request; and from any
state, a step that sends a request to `BaseUrl/FinalizePurchase` is the handling of an
authorization event with `authorized = true` or a direct `FinishPurchase` call. -/
theorem finalize_request_only_after_authorization {Obj : Type} (J : FJsonSerializer Obj)
    (self : AMicrotransaction) :
    (∀ (q : IHttpRequest) (Response : FHttpResponsePtr) (bSuccess : Bool),
      q.Callback = .InitializePurchase →
      emitted (step J self (.OnProcessRequestComplete q Response bSuccess)) = []) ∧
    (∀ (R : FSteamMicroTxnAuthorizationResponse), R.bAuthorized = false →
      emitted (step J self (.OnMicroTxnAuthorizationResponse R)) = []) ∧
    (∀ (e : Event) (q : IHttpRequest), q ∈ emitted (step J self e) →
      q.URL = self.BaseUrl ++ "/FinalizePurchase" →
      (∃ R, e = .OnMicroTxnAuthorizationResponse R ∧ R.bAuthorized = true) ∨
      (∃ OrderId, e = .FinishPurchase OrderId)) := by
  refine ⟨?_, ?_, ?_⟩
  · intro q Response bSuccess hc
    simp only [step, OnProcessRequestComplete, hc]
    exact InitializePurchaseCallback_requests J self Response bSuccess
  · intro R hb
    simp [step, OnMicroTxnAuthorizationResponse_declined self R hb, emitted, requests,
      AuthorizationLogLine]
  · intro e q hq hurl
    cases e with
    | InitializePurchase env =>
      simp [step, InitializePurchase, emitted, requests, MakeApiCall] at hq
      rw [hq] at hurl
      exact absurd hurl (url_InitPurchase_ne_FinalizePurchase self.BaseUrl)
    | FinishPurchase id => exact Or.inr ⟨id, rfl⟩
    | OnMicroTxnAuthorizationResponse R =>
      cases hb : R.bAuthorized
      · simp [step, OnMicroTxnAuthorizationResponse_declined self R hb, emitted, requests,
          AuthorizationLogLine] at hq
      · exact Or.inl ⟨R, rfl, hb⟩
    | OnProcessRequestComplete rq Response bSuccess =>
      cases hc : rq.Callback
      · simp [step, OnProcessRequestComplete, hc,
          InitializePurchaseCallback_requests J self Response bSuccess] at hq
      · simp [step, OnProcessRequestComplete, hc,
          FinishPurchaseCallback_requests J self Response bSuccess] at hq

/-- Concrete runs: an `InitPurchase` response that carries an `error` field, a declined
event, and the request sent for an authorized event. -/
theorem finalize_request_only_after_authorization_witness :
    emitted (step sampleJson sampleActor
      (.OnProcessRequestComplete
        (MakeApiCall "http://yourapi.com/InitPurchase" [] .InitializePurchase)
        (some ⟨"\x7b\"error\":\"invalid_item\"\x7d"⟩) true)) = [] ∧
    emitted (step sampleJson sampleActor
      (.OnMicroTxnAuthorizationResponse ⟨480, 1000000, false⟩)) = [] ∧
    ((∃ R, Event.OnMicroTxnAuthorizationResponse ⟨480, 1000000, true⟩
          = .OnMicroTxnAuthorizationResponse R ∧ R.bAuthorized = true) ∨
      (∃ OrderId, Event.OnMicroTxnAuthorizationResponse ⟨480, 1000000, true⟩
          = .FinishPurchase OrderId)) :=
  ⟨(finalize_request_only_after_authorization sampleJson sampleActor).1 _ _ _ rfl,
   (finalize_request_only_after_authorization sampleJson sampleActor).2.1 _ rfl,
   (finalize_request_only_after_authorization sampleJson sampleActor).2.2
     (.OnMicroTxnAuthorizationResponse ⟨480, 1000000, true⟩)
     (FinalizeRequest sampleActor "1000000") (by decide) (by decide)⟩

/-- Claim C7.  For an authorization event with `authorized = true` whose order id equals
`CurrentOrder`, the handler finishes normally and sends exactly one request: a `POST` to
`BaseUrl` followed by `/FinalizePurchase`, with JSON content type, whose body has the two
fields `orderId`, the decimal string of `CurrentOrder`, and `appId`, the configured
`AppId`. -/
theorem authorized_event_sends_finalize_for_current_order {Obj : Type}
    (J : FJsonSerializer Obj) (self : AMicrotransaction)
    (Response : FSteamMicroTxnAuthorizationResponse)
    (hauth : Response.bAuthorized = true)
    (hid : Response.OrderID = self.CurrentOrder) :
    stateAfter (step J self (.OnMicroTxnAuthorizationResponse Response)) = some self ∧
    emitted (step J self (.OnMicroTxnAuthorizationResponse Response)) =
      [{ URL := self.BaseUrl ++ "/FinalizePurchase"
         Verb := "POST"
         Headers := [("Content-Type", "application/json")]
         Content := [("orderId", FromInt self.CurrentOrder), ("appId", self.AppId)]
         Callback := .FinishPurchase }] := by
  simp [step, OnMicroTxnAuthorizationResponse_authorized self Response hauth, stateAfter,
    emitted, requests, AuthorizationLogLine, FinalizeRequest, MakeApiCall,
    FinishPurchaseRequestData_eq, hid]

/-- Concrete run: an authorized event for the current order of the fresh actor. -/
theorem authorized_event_sends_finalize_for_current_order_witness :
    stateAfter (step sampleJson sampleActor
      (.OnMicroTxnAuthorizationResponse ⟨480, 1000000, true⟩)) = some sampleActor ∧
    emitted (step sampleJson sampleActor
      (.OnMicroTxnAuthorizationResponse ⟨480, 1000000, true⟩)) =
      [{ URL := sampleActor.BaseUrl ++ "/FinalizePurchase"
         Verb := "POST"
         Headers := [("Content-Type", "application/json")]
         Content := [("orderId", FromInt sampleActor.CurrentOrder),
           ("appId", sampleActor.AppId)]
         Callback := .FinishPurchase }] :=
  authorized_event_sends_finalize_for_current_order sampleJson sampleActor
    ⟨480, 1000000, true⟩ rfl rfl

/-! ## Order ids -/

theorem InitializePurchase_orderId (self : AMicrotransaction)
    (OnlineSubsystem : Option IOnlineSubsystem) :
    GetField (InitializePurchaseRequestData self OnlineSubsystem) "orderId"
      = some (FromInt self.CurrentOrder) := by
  simp [InitializePurchaseRequestData, SetStringField, GetField, List.find?]

/-- No step assigns `CurrentOrder`. -/
theorem CurrentOrder_unchanged_by_step {Obj : Type} (J : FJsonSerializer Obj)
    (self next : AMicrotransaction) (e : Event) (out : List Effect)
    (h : step J self e = .ok (next, out)) : next.CurrentOrder = self.CurrentOrder := by
  cases e with
  | InitializePurchase env =>
    simp [step, InitializePurchase] at h
    rw [← h.1]
  | FinishPurchase id =>
    simp [step, FinishPurchase] at h
    rw [← h.1]
  | OnMicroTxnAuthorizationResponse R =>
    cases hb : R.bAuthorized
    · simp [step, OnMicroTxnAuthorizationResponse_declined self R hb] at h
      rw [← h.1]
    · simp [step, OnMicroTxnAuthorizationResponse_authorized self R hb] at h
      rw [← h.1]
  | OnProcessRequestComplete q Response bSuccess =>
    cases hc : q.Callback
    · simp only [step, OnProcessRequestComplete, hc] at h
      unfold InitializePurchaseCallback at h
      repeat' split at h
      all_goals simp at h
      all_goals rw [← h.1]
    · simp only [step, OnProcessRequestComplete, hc] at h
      unfold FinishPurchaseCallback at h
      repeat' split at h
      all_goals simp at h
      all_goals rw [← h.1]

/-- Claim C8, refuted as stated.  Two successive `InitializePurchase` calls on the
freshly constructed actor both send `orderId` 1000000, the id drawn by the constructor:
the second call draws nothing. -/
theorem successive_purchases_send_same_order_id_example :
    orderIdsSent (step sampleJson sampleActor (.InitializePurchase none))
      = [some "1000000"] ∧
    (stateAfter (step sampleJson sampleActor (.InitializePurchase none))).map
        (fun s1 => orderIdsSent (step sampleJson s1 (.InitializePurchase none)))
      = some [some "1000000"] := by
  decide

/-- Claim C8, amended.  The order id is drawn once, by the constructor, which stores the
value of the random source in `CurrentOrder`.  Every `InitializePurchase` call finishes
normally, leaves the actor state (so `CurrentOrder`) unchanged and sends one
`POST BaseUrl/InitPurchase` request whose `orderId` is the decimal string of
`CurrentOrder`; two successive calls on one actor therefore send the same `orderId`. -/
theorem order_id_drawn_once_and_reused {Obj : Type} (J : FJsonSerializer Obj)
    (RandRange : Int) (self : AMicrotransaction)
    (first second : Option IOnlineSubsystem) :
    (AMicrotransaction.AMicrotransaction RandRange).CurrentOrder = RandRange ∧
    ∃ (q1 q2 : IHttpRequest),
      step J self (.InitializePurchase first) = .ok (self, [.ProcessRequest q1]) ∧
      step J self (.InitializePurchase second) = .ok (self, [.ProcessRequest q2]) ∧
      q1.URL = self.BaseUrl ++ "/InitPurchase" ∧
      q2.URL = self.BaseUrl ++ "/InitPurchase" ∧
      q1.Verb = "POST" ∧ q2.Verb = "POST" ∧
      GetField q1.Content "orderId" = some (FromInt self.CurrentOrder) ∧
      GetField q2.Content "orderId" = some (FromInt self.CurrentOrder) :=
  ⟨rfl, _, _, rfl, rfl, rfl, rfl, rfl, rfl,
    InitializePurchase_orderId self first, InitializePurchase_orderId self second⟩

/-- Claim C9, refuted as stated.  The random source may return the upper bound
100000000; the constructor stores it, and it is not below 100000000. -/
theorem order_id_can_reach_upper_bound_example :
    (1000000 : Int) ≤ 100000000 ∧ (100000000 : Int) ≤ 100000000 ∧
    ¬ ((AMicrotransaction.AMicrotransaction 100000000).CurrentOrder < 100000000) := by
  decide

/-- Claim C9, amended.  For every value `r` the random source can return, with
`1000000 ≤ r ≤ 100000000`, the order id stored by the constructor is `r` and lies in the
closed range from 1000000 to 100000000. -/
theorem order_id_in_closed_range (RandRange : Int)
    (hlo : 1000000 ≤ RandRange) (hhi : RandRange ≤ 100000000) :
    (AMicrotransaction.AMicrotransaction RandRange).CurrentOrder = RandRange ∧
    1000000 ≤ (AMicrotransaction.AMicrotransaction RandRange).CurrentOrder ∧
    (AMicrotransaction.AMicrotransaction RandRange).CurrentOrder ≤ 100000000 :=
  ⟨rfl, hlo, hhi⟩

/-- Concrete draw inside the range. -/
theorem order_id_in_closed_range_witness :
    (AMicrotransaction.AMicrotransaction 54321000).CurrentOrder = 54321000 ∧
    1000000 ≤ (AMicrotransaction.AMicrotransaction 54321000).CurrentOrder ∧
    (AMicrotransaction.AMicrotransaction 54321000).CurrentOrder ≤ 100000000 :=
  order_id_in_closed_range 54321000 (by decide) (by decide)

/-! ## The in-progress flag -/

/-- The flag `bIsInPurchaseProcess` is `false` after any sequence of events on a
constructed actor: no member function assigns `true` to it. -/
theorem flag_false_after_run {Obj : Type} (J : FJsonSerializer Obj) (events : List Event)
    (self last : AMicrotransaction) (hf : self.bIsInPurchaseProcess = false)
    (h : runEvents J self events = some last) : last.bIsInPurchaseProcess = false := by
  induction events generalizing self with
  | nil =>
    simp [runEvents] at h
    rw [← h]
    exact hf
  | cons e rest ih =>
    simp only [runEvents] at h
    cases hstep : step J self e with
    | error f => simp [hstep] at h
    | ok res =>
      obtain ⟨next, out⟩ := res
      simp only [hstep] at h
      apply ih next _ h
      cases e with
      | InitializePurchase env =>
        simp [step, InitializePurchase] at hstep
        rw [← hstep.1]
        exact hf
      | FinishPurchase id =>
        simp [step, FinishPurchase] at hstep
        rw [← hstep.1]
        exact hf
      | OnMicroTxnAuthorizationResponse R =>
        cases hb : R.bAuthorized
        · simp [step, OnMicroTxnAuthorizationResponse_declined self R hb] at hstep
          rw [← hstep.1]
          exact hf
        · simp [step, OnMicroTxnAuthorizationResponse_authorized self R hb] at hstep
          rw [← hstep.1]
          exact hf
      | OnProcessRequestComplete q Response bSuccess =>
        cases hc : q.Callback
        · simp only [step, OnProcessRequestComplete, hc] at hstep
          unfold InitializePurchaseCallback at hstep
          repeat' split at hstep
          all_goals simp at hstep
          all_goals rw [← hstep.1]
          all_goals exact hf
        · simp only [step, OnProcessRequestComplete, hc] at hstep
          unfold FinishPurchaseCallback at hstep
          repeat' split at hstep
          all_goals simp at hstep
          all_goals rw [← hstep.1]
          all_goals exact hf

/-- Claim C10, the code at the failing input.  On a freshly constructed actor, whatever
the random draw and the online subsystem, `InitializePurchase` finishes normally and
sends its request, and the flag `bIsInPurchaseProcess` is `false` in the state right
after the call. -/
theorem flag_false_right_after_InitializePurchase {Obj : Type} (J : FJsonSerializer Obj)
    (RandRange : Int) (OnlineSubsystem : Option IOnlineSubsystem) :
    (emitted (step J (AMicrotransaction.AMicrotransaction RandRange)
      (.InitializePurchase OnlineSubsystem))).length = 1 ∧
    (stateAfter (step J (AMicrotransaction.AMicrotransaction RandRange)
      (.InitializePurchase OnlineSubsystem))).map (fun a => a.bIsInPurchaseProcess)
      = some false := by
  simp [step, InitializePurchase, emitted, requests, stateAfter,
    AMicrotransaction.AMicrotransaction]

end Microtransaction
